import Mathlib

/-!  Shallow embedding of the t2w2-sat product-catalog service.

Two source variants are modelled, each in its own namespace:
  * `AppPy` : src/app.py (the permissive variant)
  * `Ethan` : src/ethan_app_comments.py (the stricter variant)

Modelling conventions:
  * JSON request fields are three-valued (absent from the body, present
    as JSON null, or present with a value), matching Python dict access:
    `d.get(k)` maps absent and null to `None`, while `d[k]` raises
    `KeyError` on an absent key.
  * A database table is a list of rows plus an autoincrement counter;
    insert appends, delete filters, update maps in place.
  * bcrypt hashing is modelled as an injective tag on the plaintext:
    the claims only need that a hash check succeeds exactly for the
    password the hash was generated from.  flask_bcrypt raises
    ValueError when asked to hash a falsy (missing or empty) password.
  * JSON numbers are modelled as exact rationals; the service only
    stores them and tests them for Python truthiness (zero is falsy).
  * Handlers that can let an exception escape to the framework return
    `Except String`, the `.error` case being an unhandled fault (Flask
    turns it into a raw 500, not one of the JSON responses of the handler).
-/

/-- A field of a JSON request body: absent from the body, present as
JSON null, or present with a value. -/
inductive JField (α : Type) where
  | absent
  | null
  | val (v : α)
deriving Repr, DecidableEq

/-- Python `d.get(k)`: an absent key and a null value both read as None. -/
def JField.get? {α : Type} : JField α → Option α
  | .val v => some v
  | _ => none

/-- Python truthiness of `d.get(k)` for a string field: None and the
empty string are falsy; the result is the value when truthy. -/
def JField.truthyStr : JField String → Option String
  | .val v => if v = "" then none else some v
  | _ => none

/-- Python `d[k]`: raises KeyError when the key is absent from the dict;
a present null reads as None. -/
def JField.index {α : Type} (k : String) : JField α → Except String (Option α)
  | .absent => .error ("KeyError: " ++ k)
  | .null => .ok none
  | .val v => .ok (some v)

/-- A JSON value appearing in a response body.  `tok idn days` stands
for the signed bearer token produced by
create_access_token(identity := idn, expires_delta := timedelta(days)),
modelled by its claims: the subject identity and the expiry. -/
inductive JVal where
  | s (v : String)
  | i (v : Int)
  | q (v : Rat)
  | b (v : Bool)
  | null
  | tok (identity : String) (expiresDays : Nat)
deriving Repr, DecidableEq

/-- A JSON response body: a single object or an array of objects. -/
inductive ResBody where
  | obj (fields : List (String × JVal))
  | arr (items : List (List (String × JVal)))
deriving Repr, DecidableEq

/-- The keys of an object response body. -/
def ResBody.keys : ResBody → List String
  | .obj fs => fs.map (fun f => f.1)
  | .arr _ => []

/-- The bcrypt hash of a plaintext password, modelled as an injective
tagging (the real hash is salted and one-way; the claims only need
that check_password_hash recognises exactly this plaintext). -/
def bcryptHash (p : String) : String := "bcrypt$" ++ p

/-- flask_bcrypt generate_password_hash: raises ValueError on a falsy
(missing or empty) password, otherwise hashes. -/
def generate_password_hash : Option String → Except String String
  | none => .error "ValueError: Password must be non-empty."
  | some p => if p = "" then .error "ValueError: Password must be non-empty." else .ok (bcryptHash p)

/-- flask_bcrypt check_password_hash: succeeds exactly when the stored
hash was generated from this plaintext. -/
def check_password_hash (stored p : String) : Bool := stored == bcryptHash p

/-- A row of the products table.  Both variants declare id, name,
description, price and stock; description, price and stock are nullable
in at least one variant and so modelled as options. -/
structure ProductRow where
  id : Nat
  name : String
  description : Option String
  price : Option Rat
  stock : Option Int
deriving Repr, DecidableEq

/-- A PUT/PATCH /products request body. -/
structure ProductBody where
  name : JField String
  description : JField String
  price : JField Rat
  stock : JField Int
deriving Repr, DecidableEq

/-- A POST /auth/login request body. -/
structure LoginBody where
  username : JField String
  email : JField String
  password : JField String
deriving Repr, DecidableEq

/-- Marshmallow serialisation of one product field (shared by the two
variants, whose ProductSchema fields only differ in order). -/
def productField (p : ProductRow) : String → JVal
  | "id" => .i p.id
  | "name" => .s p.name
  | "description" => match p.description with | some d => .s d | none => .null
  | "price" => match p.price with | some v => .q v | none => .null
  | "stock" => match p.stock with | some n => .i n | none => .null
  | _ => .null

namespace AppPy

/-- A row of the users table of src/app.py: name is nullable, email and
password are nullable=False, is_admin defaults to false.  Note that no
column of this variant carries a unique constraint apart from the
primary key. -/
structure UserRow where
  id : Nat
  name : Option String
  email : String
  password : String
  is_admin : Bool
deriving Repr, DecidableEq

/-- The durable state of the permissive variant: the two tables. -/
structure State where
  users : List UserRow
  nextUserId : Nat
  products : List ProductRow
  nextProductId : Nat
deriving Repr, DecidableEq

/-- UserSchema Meta fields of src/app.py. -/
def userSchemaFields : List String := ["id", "name", "email", "password", "is_admin"]

/-- user_schema = UserSchema(exclude := ["password"]). -/
def userSchemaExclude : List String := ["password"]

/-- Marshmallow serialisation of one user field. -/
def userField (u : UserRow) : String → JVal
  | "id" => .i u.id
  | "name" => match u.name with | some n => .s n | none => .null
  | "email" => .s u.email
  | "password" => .s u.password
  | "is_admin" => .b u.is_admin
  | _ => .null

/-- user_schema.dump: the Meta fields minus the exclude list, each
looked up on the row. -/
def user_schema_dump (u : UserRow) : List (String × JVal) :=
  (userSchemaFields.filter (fun f => !(userSchemaExclude.contains f))).map
    (fun f => (f, userField u f))

/-- ProductSchema Meta fields of src/app.py (no exclude list). -/
def productSchemaFields : List String := ["id", "name", "description", "price", "stock"]

/-- product_schema.dump of src/app.py. -/
def product_schema_dump (p : ProductRow) : List (String × JVal) :=
  productSchemaFields.map (fun f => (f, productField p f))

/-- A POST /auth/register body for src/app.py.  The handler reads name,
email and password with .get; an is_admin key may be present in the
body but the handler never reads it. -/
structure RegisterBody where
  name : JField String
  email : JField String
  password : JField String
  is_admin : JField Bool
deriving Repr, DecidableEq

/-- Committing a new User row.  The users table of this variant has
nullable=False on email and password but no unique constraint on any
column, so the only IntegrityError an insert can raise here is a null
email (the password argument is always the non-null hash).  is_admin is
not passed by the handler and takes the column default false. -/
def insertUser (st : State) (name : Option String) (email : Option String)
    (password : String) : Except Unit (UserRow × State) :=
  match email with
  | none => .error ()
  | some e =>
      let u : UserRow := { id := st.nextUserId, name := name, email := e,
                           password := password, is_admin := false }
      .ok (u, { st with users := st.users ++ [u], nextUserId := st.nextUserId + 1 })

/-- POST /auth/register of src/app.py.  The try block catches only
IntegrityError; the ValueError raised by bcrypt on a falsy password
propagates out of the handler as an unhandled fault. -/
def register_user (st : State) (b : RegisterBody) : Except String (Nat × ResBody × State) :=
  match generate_password_hash b.password.get? with
  | .error e => .error e
  | .ok hashed =>
      match insertUser st b.name.get? b.email.get? hashed with
      | .ok (u, st') => .ok (201, .obj (user_schema_dump u), st')
      | .error _ => .ok (400, .obj [("error", .s "Email address already exists")], st)

/-- The user lookup of the login handler:
db.select(User).filter_by(email := body.get("email")); a missing email
compares as NULL and matches no row. -/
def loginLookup (st : State) (b : LoginBody) : Option UserRow :=
  match b.email.get? with
  | some e => st.users.find? (fun u => u.email == e)
  | none => none

/-- POST /auth/login of src/app.py.  When a user is found but the body
carries no password, check_password_hash raises on None (an unhandled
fault); otherwise both failure cases return the same literal 401 body. -/
def login_user (st : State) (b : LoginBody) : Except String (Nat × ResBody) :=
  match loginLookup st b with
  | some u =>
      match b.password.get? with
      | some p =>
          if check_password_hash u.password p then
            .ok (200, .obj [("token", .tok (toString u.id) 1),
                            ("email", .s u.email), ("is_admin", .b u.is_admin)])
          else
            .ok (401, .obj [("error", .s "Invalid email or password")])
      | none => .error "AttributeError"
  | none => .ok (401, .obj [("error", .s "Invalid email or password")])

/-- GET /products/id of src/app.py. -/
def get_product (st : State) (pid : Nat) : Nat × ResBody :=
  match st.products.find? (fun p => p.id == pid) with
  | some p => (200, .obj (product_schema_dump p))
  | none => (404, .obj [("error", .s ("Product with id " ++ toString pid ++ " does not exist"))])

/-- PUT/PATCH /products/id handler body of src/app.py: each field is
set to body.get(k) or the existing value, so an absent, null or falsy
value keeps the stored one. -/
def update_product (st : State) (pid : Nat) (b : ProductBody) : Nat × ResBody × State :=
  match st.products.find? (fun p => p.id == pid) with
  | some p =>
      let p' : ProductRow :=
        { id := p.id
          name := match b.name.get? with
            | some v => if v = "" then p.name else v
            | none => p.name
          description := match b.description.get? with
            | some v => if v = "" then p.description else some v
            | none => p.description
          price := match b.price.get? with
            | some v => if v = 0 then p.price else some v
            | none => p.price
          stock := match b.stock.get? with
            | some v => if v = 0 then p.stock else some v
            | none => p.stock }
      (200, .obj (product_schema_dump p'),
        { st with products := st.products.map (fun q => if q.id == pid then p' else q) })
  | none => (404, .obj [("error", .s ("Product with id " ++ toString pid ++ " does not exist"))], st)

/-- The update route of src/app.py carries @jwt_required(): with no
valid bearer token the extension answers 401 before the handler runs;
with one, the handler runs on the token identity. -/
def update_route (auth : Option String) (st : State) (pid : Nat) (b : ProductBody) :
    Nat × ResBody × State :=
  match auth with
  | none => (401, .obj [("msg", .s "Missing Authorization Header")], st)
  | some _ => update_product st pid b

/-- Lookup of the User row for a token identity (the identity is the
string form of the user id). -/
def findUser (st : State) (identity : String) : Option UserRow :=
  st.users.find? (fun u => toString u.id == identity)

/-- The admin check of src/app.py: returns user.is_admin with no None
check, so a missing user row raises AttributeError (an unhandled
fault). -/
def authoriseAsAdmin (st : State) (identity : String) : Except String Bool :=
  match findUser st identity with
  | some u => .ok u.is_admin
  | none => .error "AttributeError: NoneType object has no attribute is_admin"

/-- DELETE /products/id of src/app.py (the identity comes from the
validated bearer token). -/
def delete_product (st : State) (identity : String) (pid : Nat) :
    Except String (Nat × ResBody × State) :=
  match authoriseAsAdmin st identity with
  | .error e => .error e
  | .ok isAdm =>
      if !isAdm then
        .ok (403, .obj [("error", .s "Not authorised to delete a product")], st)
      else
        match st.products.find? (fun p => p.id == pid) with
        | some _ =>
            .ok (200,
              .obj [("message", .s ("Product with id " ++ toString pid ++ " has been deleted."))],
              { st with products := st.products.filter (fun p => p.id != pid) })
        | none =>
            .ok (404,
              .obj [("error", .s ("Product with id " ++ toString pid ++ " does not exist"))], st)

end AppPy

namespace Ethan

/-- A row of the users table of src/ethan_app_comments.py: username and
email are unique and non-null, password non-null, is_admin defaults to
false. -/
structure UserRow where
  id : Nat
  username : String
  email : String
  password : String
  is_admin : Bool
deriving Repr, DecidableEq

/-- The durable state of the stricter variant: the two tables. -/
structure State where
  users : List UserRow
  nextUserId : Nat
  products : List ProductRow
  nextProductId : Nat
deriving Repr, DecidableEq

/-- UserSchema Meta fields of the stricter variant. -/
def userSchemaFields : List String := ["id", "username", "email", "password", "is_admin"]

/-- user_schema = UserSchema(exclude := ["password"]). -/
def userSchemaExclude : List String := ["password"]

/-- Marshmallow serialisation of one user field. -/
def userField (u : UserRow) : String → JVal
  | "id" => .i u.id
  | "username" => .s u.username
  | "email" => .s u.email
  | "password" => .s u.password
  | "is_admin" => .b u.is_admin
  | _ => .null

/-- user_schema.dump: the Meta fields minus the exclude list. -/
def user_schema_dump (u : UserRow) : List (String × JVal) :=
  (userSchemaFields.filter (fun f => !(userSchemaExclude.contains f))).map
    (fun f => (f, userField u f))

/-- ProductSchema Meta fields of the stricter variant. -/
def productSchemaFields : List String := ["id", "name", "price", "description", "stock"]

/-- product_schema.dump of the stricter variant. -/
def product_schema_dump (p : ProductRow) : List (String × JVal) :=
  productSchemaFields.map (fun f => (f, productField p f))

/-- A POST /auth/register body for the stricter variant. -/
structure RegisterBody where
  username : JField String
  email : JField String
  password : JField String
  is_admin : JField Bool
deriving Repr, DecidableEq

/-- POST /auth/register of the stricter variant: explicit missing-field
and length checks, pre-queries for duplicate username and email, then an
insert with is_admin := data.get("is_admin", False).  (A present-null
is_admin actually stores NULL; no claim touches that corner and it is
modelled as the default false.)  The catch-all except of the source can
only fire on paths already excluded by the checks, so the handler is
total here. -/
def register (st : State) (b : RegisterBody) : Nat × ResBody × State :=
  match b.username.truthyStr, b.email.truthyStr, b.password.truthyStr with
  | some username, some email, some password =>
      if password.length < 8 then
        (400, .obj [("message", .s "Password must be at least 8 characters")], st)
      else if (st.users.find? (fun u => u.username == username)).isSome then
        (400, .obj [("message", .s "Username already exists")], st)
      else if (st.users.find? (fun u => u.email == email)).isSome then
        (400, .obj [("message", .s "Email already exists")], st)
      else
        let u : UserRow := { id := st.nextUserId, username := username, email := email,
                             password := bcryptHash password,
                             is_admin := match b.is_admin.get? with | some v => v | none => false }
        (201, .obj (user_schema_dump u),
          { st with users := st.users ++ [u], nextUserId := st.nextUserId + 1 })
  | _, _, _ => (400, .obj [("message", .s "Missing username, email, or password")], st)

/-- The two-step lookup of the login handler: by username first, then by
email; a missing identifier compares as NULL and matches no row. -/
def loginLookup (st : State) (b : LoginBody) : Option UserRow :=
  match (match b.username.get? with
         | some un => st.users.find? (fun u => u.username == un)
         | none => none) with
  | some u => some u
  | none =>
      match b.email.get? with
      | some e => st.users.find? (fun u => u.email == e)
      | none => none

/-- POST /auth/login of the stricter variant.  Both failure cases after
the missing-field checks return the same literal 401 body.  (The final
None-password branch is unreachable because the password was checked
truthy; it is given the same 401 body.) -/
def login (st : State) (b : LoginBody) : Nat × ResBody :=
  if b.username.truthyStr.isNone && b.email.truthyStr.isNone then
    (400, .obj [("message", .s "Missing username or email")])
  else if b.password.truthyStr.isNone then
    (400, .obj [("message", .s "Missing password")])
  else
    match loginLookup st b with
    | none => (401, .obj [("message", .s "Invalid username or password")])
    | some u =>
        match b.password.get? with
        | some p =>
            if !(check_password_hash u.password p) then
              (401, .obj [("message", .s "Invalid username or password")])
            else
              (200, .obj [("token", .tok (toString u.id) 1),
                          ("email", .s u.email), ("is_admin", .b u.is_admin)])
        | none => (401, .obj [("message", .s "Invalid username or password")])

/-- GET /products/id of the stricter variant.  The source wraps
product_schema.dump(product) in try/except, the except branch answering
404 "Product not found".  marshmallow Schema.dump(None) does not raise:
each field lookup on None yields the missing marker and is skipped, so
dump(None) evaluates to the empty object and the handler answers 200
with {} for an absent id — the except branch is unreachable from a
missing row. -/
def get_product (st : State) (pid : Nat) : Nat × ResBody :=
  match st.products.find? (fun p => p.id == pid) with
  | some p => (200, .obj (product_schema_dump p))
  | none => (200, .obj [])

/-- PUT/PATCH /products/id of the stricter variant.
product_schema.load passes through exactly the keys present in the body
(the schema fields are untyped Raw fields with no load defaults); the
handler then reads data["name"], data["price"], data["description"],
data["stock"] by indexing, so any key omitted from the body raises
KeyError, an unhandled fault, before any field is assigned.  A present
key with a falsy value keeps the stored value through the `or`.  On
success the handler returns the serialised list of all products. -/
def update_product (st : State) (pid : Nat) (b : ProductBody) :
    Except String (Nat × ResBody × State) :=
  match st.products.find? (fun p => p.id == pid) with
  | none => .ok (404, .obj [("message", .s "Product not found")], st)
  | some p => do
      let nv ← JField.index "name" b.name
      let pv ← JField.index "price" b.price
      let dv ← JField.index "description" b.description
      let sv ← JField.index "stock" b.stock
      let p' : ProductRow :=
        { id := p.id
          name := match nv with | some v => if v = "" then p.name else v | none => p.name
          price := match pv with | some v => if v = 0 then p.price else some v | none => p.price
          description := match dv with
            | some v => if v = "" then p.description else some v
            | none => p.description
          stock := match sv with | some v => if v = 0 then p.stock else some v | none => p.stock }
      let st' := { st with products := st.products.map (fun q => if q.id == pid then p' else q) }
      .ok (200, .arr (st'.products.map product_schema_dump), st')

/-- The update route of the stricter variant carries no @jwt_required
decorator in the source: the handler runs whether or not the request
presents a token. -/
def update_route (_auth : Option String) (st : State) (pid : Nat) (b : ProductBody) :
    Except String (Nat × ResBody × State) :=
  update_product st pid b

/-- Lookup of the User row for a token identity. -/
def findUser (st : State) (identity : String) : Option UserRow :=
  st.users.find? (fun u => toString u.id == identity)

/-- The admin check of the stricter variant: false when the user row is
missing, false when the row is not admin, true otherwise. -/
def auth_as_admin (st : State) (identity : String) : Bool :=
  match findUser st identity with
  | none => false
  | some u => if !u.is_admin then false else true

/-- DELETE /products/id of the stricter variant (the identity comes
from the validated bearer token). -/
def delete_product (st : State) (identity : String) (pid : Nat) : Nat × ResBody × State :=
  if !(auth_as_admin st identity) then
    (401, .obj [("message", .s "Unauthorized")], st)
  else
    match st.products.find? (fun p => p.id == pid) with
    | some _ =>
        (200, .obj [("message", .s "Product deleted")],
          { st with products := st.products.filter (fun p => p.id != pid) })
    | none => (404, .obj [("message", .s "Product not found")], st)

end Ethan

/-! ## Concrete fixtures used by closed theorems and witnesses -/

/-- The seeded product. -/
def prodW : ProductRow :=
  { id := 1, name := "Fruit", description := some "Fresh fruit", price := some 15, stock := some 100 }

/-- An empty database for the permissive variant. -/
def stA0 : AppPy.State := { users := [], nextUserId := 1, products := [], nextProductId := 1 }

def userAdminA : AppPy.UserRow :=
  { id := 1, name := none, email := "admin@gmail.com", password := bcryptHash "abc123", is_admin := true }

def userPlainA : AppPy.UserRow :=
  { id := 2, name := some "User 1", email := "user1@gmail.com",
    password := bcryptHash "123456", is_admin := false }

/-- Permissive-variant database with one admin, one plain user, one product. -/
def stA2 : AppPy.State :=
  { users := [userAdminA, userPlainA], nextUserId := 3, products := [prodW], nextProductId := 2 }

def userAdminE : Ethan.UserRow :=
  { id := 1, username := "admin", email := "admin@gmail.com",
    password := bcryptHash "abc12345", is_admin := true }

def userPlainE : Ethan.UserRow :=
  { id := 2, username := "user1", email := "user1@gmail.com",
    password := bcryptHash "12345678", is_admin := false }

/-- Stricter-variant database with one admin, one plain user, one product. -/
def stE2 : Ethan.State :=
  { users := [userAdminE, userPlainE], nextUserId := 3, products := [prodW], nextProductId := 2 }

/-- A well-formed register body for the permissive variant. -/
def regBody1 : AppPy.RegisterBody :=
  { name := .val "User 1", email := .val "user1@gmail.com",
    password := .val "12345678", is_admin := .absent }

/-- The row regBody1 creates in an empty database. -/
def userDup1 : AppPy.UserRow :=
  { id := 1, name := some "User 1", email := "user1@gmail.com",
    password := bcryptHash "12345678", is_admin := false }

/-- The database after registering regBody1 once. -/
def stA1 : AppPy.State := { users := [userDup1], nextUserId := 2, products := [], nextProductId := 1 }

/-- A stricter-variant register body with a fresh username but an
already-used email. -/
def regBodyE3 : Ethan.RegisterBody :=
  { username := .val "newuser", email := .val "user1@gmail.com",
    password := .val "12345678", is_admin := .absent }

/-- A stricter-variant register body with a fresh username and email. -/
def regBodyE4 : Ethan.RegisterBody :=
  { username := .val "newuser", email := .val "new@b.com",
    password := .val "12345678", is_admin := .absent }

/-- Stricter-variant database holding only one product and no users. -/
def stE4 : Ethan.State := { users := [], nextUserId := 1, products := [prodW], nextProductId := 2 }

/-- Permissive-variant database holding only one product and no users. -/
def stA8 : AppPy.State := { users := [], nextUserId := 1, products := [prodW], nextProductId := 2 }

/-- A full product body (all four keys present and truthy). -/
def fullBody4 : ProductBody :=
  { name := .val "Fruit2", description := .val "Dried fruit", price := .val 20, stock := .val 50 }

/-- A product body carrying only the price key. -/
def priceOnly : ProductBody :=
  { name := .absent, description := .absent, price := .val 20, stock := .absent }

/-- A register body with every key absent. -/
def emptyRegBody : AppPy.RegisterBody :=
  { name := .absent, email := .absent, password := .absent, is_admin := .absent }

/-- A login body with an email matching no user. -/
def unknownLogin : LoginBody :=
  { username := .absent, email := .val "nosuch@gmail.com", password := .val "whatever1" }

/-- A login body with a known email but a wrong password. -/
def wrongPassLogin : LoginBody :=
  { username := .absent, email := .val "user1@gmail.com", password := .val "wrongpass" }

/-- A correct login for the permissive-variant seeded user. -/
def goodLoginA : LoginBody :=
  { username := .absent, email := .val "user1@gmail.com", password := .val "123456" }

/-- A correct login for the stricter-variant seeded user. -/
def goodLoginE : LoginBody :=
  { username := .absent, email := .val "user1@gmail.com", password := .val "12345678" }

/-- A stricter-variant register body with no username. -/
def missingFieldBodyE : Ethan.RegisterBody :=
  { username := .absent, email := .val "a@b.com", password := .val "12345678",
    is_admin := .absent }

/-- A stricter-variant register body with a 7-character password. -/
def shortPwBodyE : Ethan.RegisterBody :=
  { username := .val "u1", email := .val "a@b.com", password := .val "short12",
    is_admin := .absent }

/-- A permissive-variant register body with a password but no email. -/
def noEmailBodyA : AppPy.RegisterBody :=
  { name := .absent, email := .absent, password := .val "12345678", is_admin := .absent }

/-- A permissive-variant register body that asks for is_admin true. -/
def regBodyAdmTrue : AppPy.RegisterBody :=
  { name := .absent, email := .val "adm@x.com", password := .val "abc12345",
    is_admin := .val true }

/-- The row regBodyAdmTrue creates in an empty database: is_admin is
still false. -/
def userAdmReq : AppPy.UserRow :=
  { id := 1, name := none, email := "adm@x.com", password := bcryptHash "abc12345",
    is_admin := false }

/-- The database after registering regBodyAdmTrue in an empty one. -/
def stAdmReq : AppPy.State :=
  { users := [userAdmReq], nextUserId := 2, products := [], nextProductId := 1 }

/-! ## Claims -/

/-- C2 (code_bug): at a concrete state, in both variants a valid-token
DELETE by a non-admin answers 401/403 and keeps the row, and an admin
DELETE removes the row; in the permissive variant the subsequent GET of
the deleted id answers 404 as claimed, but in the stricter variant it
answers 200 with an empty object instead of 404, because the
try/except in get_product never fires for a missing row
(marshmallow dump(None) returns the empty object). -/
theorem delete_then_get_divergence :
    (Ethan.delete_product stE2 "2" 1).1 = 401 ∧
    ((Ethan.delete_product stE2 "2" 1).2.2).products = [prodW] ∧
    (Ethan.delete_product stE2 "1" 1).1 = 200 ∧
    ((Ethan.delete_product stE2 "1" 1).2.2).products = [] ∧
    Ethan.get_product (Ethan.delete_product stE2 "1" 1).2.2 1 = (200, .obj []) ∧
    AppPy.delete_product stA2 "2" 1 =
      .ok (403, .obj [("error", .s "Not authorised to delete a product")], stA2) ∧
    (AppPy.delete_product stA2 "1" 1).map (fun r => r.1) = .ok 200 ∧
    (AppPy.delete_product stA2 "1" 1).map (fun r => r.2.2.products) = .ok [] ∧
    (AppPy.delete_product stA2 "1" 1).map (fun r => (AppPy.get_product r.2.2 1).1) = .ok 404 :=
  ⟨rfl, rfl, rfl, rfl, rfl, rfl, rfl, rfl, rfl⟩

/-- C3 (code_bug): in src/app.py the users table has no unique
constraint on email, so a second registration with an already-used
email does not raise IntegrityError: it answers 201 and inserts a
second row with the same email, instead of failing with 400 and leaving
the table unchanged.  The stricter variant does answer 400 and keeps
the table. -/
theorem duplicate_email_register_divergence :
    AppPy.register_user stA0 regBody1 =
      .ok (201, .obj (AppPy.user_schema_dump userDup1), stA1) ∧
    (AppPy.register_user stA1 regBody1).map (fun r => r.1) = .ok 201 ∧
    (AppPy.register_user stA1 regBody1).map (fun r => r.2.2.users.map (fun u => u.email)) =
      .ok ["user1@gmail.com", "user1@gmail.com"] ∧
    Ethan.register stE2 regBodyE3 = (400, .obj [("message", .s "Email already exists")], stE2) :=
  ⟨rfl, rfl, rfl, rfl⟩

/-- C4 counterexample: in the stricter variant a PUT/PATCH carrying no
token is processed anyway — status 200 and the product row changes —
instead of the claimed 401 with no modification. -/
theorem update_without_token_processed_ethan :
    (Ethan.update_route none stE4 1 fullBody4).map (fun r => r.1) = .ok 200 ∧
    (Ethan.update_route none stE4 1 fullBody4).map (fun r => r.2.2.products.map (fun p => p.name)) =
      .ok ["Fruit2"] :=
  ⟨rfl, rfl⟩

/-- C4 amended: in the permissive variant PUT/PATCH without a valid
token answers 401 and leaves the whole state unchanged; in the stricter
variant the update route ignores authentication entirely and behaves as
the bare handler. -/
theorem update_auth_amended :
    (∀ (st : AppPy.State) (pid : Nat) (b : ProductBody),
        AppPy.update_route none st pid b =
          (401, .obj [("msg", .s "Missing Authorization Header")], st)) ∧
    (∀ (auth : Option String) (st : Ethan.State) (pid : Nat) (b : ProductBody),
        Ethan.update_route auth st pid b = Ethan.update_product st pid b) :=
  ⟨fun _ _ _ => rfl, fun _ _ _ _ => rfl⟩

/-- C5 counterexample: in src/app.py the admin check for an identity
whose user row is absent raises AttributeError (an unhandled fault)
instead of returning false. -/
theorem admin_check_missing_user_raises :
    AppPy.authoriseAsAdmin stA0 "7" =
      .error "AttributeError: NoneType object has no attribute is_admin" := rfl

/-- C8 (code_bug): a PUT with body carrying only price on an existing
row: src/app.py keeps every other field and answers 200, but the
stricter variant raises KeyError on the first omitted key
(contradicting its own comment that a field not provided keeps the
existing value) and no update happens. -/
theorem price_only_update_divergence :
    (AppPy.update_product stA8 1 priceOnly).1 = 200 ∧
    ((AppPy.update_product stA8 1 priceOnly).2.2).products = [{ prodW with price := some 20 }] ∧
    Ethan.update_product stE2 1 priceOnly = .error "KeyError: name" :=
  ⟨rfl, rfl, rfl⟩

/-- C9 counterexample: a register body missing every field — in
particular the required email — makes src/app.py raise an unhandled
ValueError from bcrypt instead of answering 400 with a JSON message. -/
theorem register_missing_fields_raises :
    AppPy.register_user stA0 emptyRegBody = .error "ValueError: Password must be non-empty." := rfl

/-! ## Helper lemmas shared by several claims -/

/-- The keys of a permissive-variant user dump are the schema fields
minus the excluded password, whatever the row. -/
theorem user_schema_dump_keys_appA (u : AppPy.UserRow) :
    (ResBody.obj (AppPy.user_schema_dump u)).keys = ["id", "name", "email", "is_admin"] := rfl

/-- The keys of a stricter-variant user dump are the schema fields
minus the excluded password, whatever the row. -/
theorem user_schema_dump_keys_ethan (u : Ethan.UserRow) :
    (ResBody.obj (Ethan.user_schema_dump u)).keys = ["id", "username", "email", "is_admin"] := rfl

/-- Characterisation of a 201 result of the permissive register handler:
the email was present, the password hashed, and the result is exactly
the dump of the appended row, whose is_admin is false. -/
theorem register_user_201_char (st : AppPy.State) (b : AppPy.RegisterBody)
    (r : Nat × ResBody × AppPy.State)
    (h : AppPy.register_user st b = .ok r) (h201 : r.1 = 201) :
    ∃ e hashed,
      b.email.get? = some e ∧ generate_password_hash b.password.get? = .ok hashed ∧
      r = (201,
           .obj (AppPy.user_schema_dump
             { id := st.nextUserId, name := b.name.get?, email := e,
               password := hashed, is_admin := false }),
           { st with
               users := st.users ++
                 [{ id := st.nextUserId, name := b.name.get?, email := e,
                    password := hashed, is_admin := false }],
               nextUserId := st.nextUserId + 1 }) := by
  cases hg : generate_password_hash b.password.get? with
  | error e =>
      have hreg : AppPy.register_user st b = .error e := by
        unfold AppPy.register_user; rw [hg]
      rw [hreg] at h
      exact Except.noConfusion h
  | ok hashed =>
      cases he : b.email.get? with
      | none =>
          have hreg : AppPy.register_user st b =
              .ok (400, .obj [("error", .s "Email address already exists")], st) := by
            unfold AppPy.register_user; rw [hg]; unfold AppPy.insertUser; rw [he]
          rw [hreg] at h
          injection h with h'
          rw [← h'] at h201
          simp at h201
      | some e =>
          have hreg : AppPy.register_user st b =
              .ok (201,
                .obj (AppPy.user_schema_dump
                  { id := st.nextUserId, name := b.name.get?, email := e,
                    password := hashed, is_admin := false }),
                { st with
                    users := st.users ++
                      [{ id := st.nextUserId, name := b.name.get?, email := e,
                         password := hashed, is_admin := false }],
                    nextUserId := st.nextUserId + 1 }) := by
            unfold AppPy.register_user; rw [hg]; unfold AppPy.insertUser; rw [he]
          rw [hreg] at h
          injection h with h'
          exact ⟨e, hashed, rfl, rfl, h'.symm⟩

/-- C1: every successful (201) registration returns the created user
public fields and the payload never contains a password key, in both
variants. -/
theorem register_payload_never_contains_password :
    (∀ (st : AppPy.State) (b : AppPy.RegisterBody) (r : Nat × ResBody × AppPy.State),
        AppPy.register_user st b = .ok r → r.1 = 201 →
        r.2.1.keys = ["id", "name", "email", "is_admin"] ∧ "password" ∉ r.2.1.keys) ∧
    (∀ (st : Ethan.State) (b : Ethan.RegisterBody) (r : Nat × ResBody × Ethan.State),
        Ethan.register st b = r → r.1 = 201 →
        r.2.1.keys = ["id", "username", "email", "is_admin"] ∧ "password" ∉ r.2.1.keys) := by
  constructor
  · intro st b r h h201
    obtain ⟨e, hashed, _, _, hr⟩ := register_user_201_char st b r h h201
    subst hr
    refine ⟨user_schema_dump_keys_appA _, ?_⟩
    rw [user_schema_dump_keys_appA]
    decide
  · intro st b r h h201
    subst h
    cases hu : b.username.truthyStr with
    | none =>
        unfold Ethan.register at h201
        rw [hu] at h201
        simp at h201
    | some username =>
        cases he : b.email.truthyStr with
        | none =>
            unfold Ethan.register at h201
            rw [hu, he] at h201
            simp at h201
        | some email =>
            cases hp : b.password.truthyStr with
            | none =>
                unfold Ethan.register at h201
                rw [hu, he, hp] at h201
                simp at h201
            | some password =>
                unfold Ethan.register at h201 ⊢
                rw [hu, he, hp] at h201 ⊢
                dsimp only at h201 ⊢
                by_cases h8 : password.length < 8
                · rw [if_pos h8] at h201
                  simp at h201
                · rw [if_neg h8] at h201 ⊢
                  by_cases hdupu :
                      (st.users.find? (fun u => u.username == username)).isSome = true
                  · rw [if_pos hdupu] at h201
                    simp at h201
                  · rw [if_neg hdupu] at h201 ⊢
                    by_cases hdupe :
                        (st.users.find? (fun u => u.email == email)).isSome = true
                    · rw [if_pos hdupe] at h201
                      simp at h201
                    · rw [if_neg hdupe]
                      refine ⟨user_schema_dump_keys_ethan _, ?_⟩
                      rw [user_schema_dump_keys_ethan]
                      decide

/-- C1 witness: a concrete successful registration in each variant. -/
theorem register_payload_never_contains_password_witness :
    ((201, ResBody.obj (AppPy.user_schema_dump userDup1), stA1).2.1.keys =
        ["id", "name", "email", "is_admin"] ∧
      "password" ∉ (201, ResBody.obj (AppPy.user_schema_dump userDup1), stA1).2.1.keys) ∧
    ((Ethan.register stE2 regBodyE4).2.1.keys = ["id", "username", "email", "is_admin"] ∧
      "password" ∉ (Ethan.register stE2 regBodyE4).2.1.keys) :=
  ⟨register_payload_never_contains_password.1 stA0 regBody1
      (201, .obj (AppPy.user_schema_dump userDup1), stA1) rfl rfl,
   register_payload_never_contains_password.2 stE2 regBodyE4
      (Ethan.register stE2 regBodyE4) rfl rfl⟩

/-- C5 amended: the stricter-variant predicate returns true exactly when
the user row exists and is_admin is true (so false when the row is
missing); the permissive-variant predicate returns is_admin when the
row exists but raises instead of returning false when the row is
missing. -/
theorem admin_check_amended :
    (∀ (st : Ethan.State) (idn : String),
        Ethan.auth_as_admin st idn = true ↔
          ∃ u, Ethan.findUser st idn = some u ∧ u.is_admin = true) ∧
    (∀ (st : AppPy.State) (idn : String) (u : AppPy.UserRow),
        AppPy.findUser st idn = some u →
        AppPy.authoriseAsAdmin st idn = .ok u.is_admin) ∧
    (∀ (st : AppPy.State) (idn : String),
        AppPy.findUser st idn = none →
        (AppPy.authoriseAsAdmin st idn).isOk = false) := by
  refine ⟨?_, ?_, ?_⟩
  · intro st idn
    cases hf : Ethan.findUser st idn with
    | none => simp [Ethan.auth_as_admin, hf]
    | some u =>
        cases hu : u.is_admin <;> simp [Ethan.auth_as_admin, hf, hu]
  · intro st idn u h
    unfold AppPy.authoriseAsAdmin
    rw [h]
  · intro st idn h
    unfold AppPy.authoriseAsAdmin
    rw [h]
    rfl

/-- C5 amended witness: the stricter variant answers true for a present
admin; the permissive variant answers the stored flag for a present row
and raises for a missing one. -/
theorem admin_check_amended_witness :
    Ethan.auth_as_admin stE2 "1" = true ∧
    AppPy.authoriseAsAdmin stA2 "1" = .ok true ∧
    (AppPy.authoriseAsAdmin stA0 "9").isOk = false :=
  ⟨(admin_check_amended.1 stE2 "1").mpr ⟨userAdminE, rfl, rfl⟩,
   admin_check_amended.2.1 stA2 "1" userAdminA rfl,
   admin_check_amended.2.2 stA0 "9" rfl⟩

/-- C6: for any state, a login whose identifier matches no user and a
login whose identifier matches a user but whose password fails the hash
check produce the same 401 response body, in both variants. -/
theorem login_failure_responses_identical :
    (∀ (st : AppPy.State) (b1 b2 : LoginBody) (u : AppPy.UserRow) (p : String),
        AppPy.loginLookup st b1 = none →
        AppPy.loginLookup st b2 = some u →
        b2.password.get? = some p →
        check_password_hash u.password p = false →
        AppPy.login_user st b1 = AppPy.login_user st b2 ∧
          AppPy.login_user st b1 =
            .ok (401, .obj [("error", .s "Invalid email or password")])) ∧
    (∀ (st : Ethan.State) (b1 b2 : LoginBody) (u : Ethan.UserRow) (p : String),
        (b1.username.truthyStr.isNone && b1.email.truthyStr.isNone) = false →
        b1.password.truthyStr.isNone = false →
        Ethan.loginLookup st b1 = none →
        (b2.username.truthyStr.isNone && b2.email.truthyStr.isNone) = false →
        b2.password.truthyStr.isNone = false →
        Ethan.loginLookup st b2 = some u →
        b2.password.get? = some p →
        check_password_hash u.password p = false →
        Ethan.login st b1 = Ethan.login st b2 ∧
          Ethan.login st b1 =
            (401, .obj [("message", .s "Invalid username or password")])) := by
  constructor
  · intro st b1 b2 u p h1 h2 hp hc
    have e1 : AppPy.login_user st b1 =
        .ok (401, .obj [("error", .s "Invalid email or password")]) := by
      unfold AppPy.login_user; rw [h1]
    have e2 : AppPy.login_user st b2 =
        .ok (401, .obj [("error", .s "Invalid email or password")]) := by
      unfold AppPy.login_user; rw [h2]
      dsimp only
      rw [hp]
      dsimp only
      rw [hc]
      rfl
    exact ⟨e1.trans e2.symm, e1⟩
  · intro st b1 b2 u p g1 g1p h1 g2 g2p h2 hp hc
    have e1 : Ethan.login st b1 =
        (401, .obj [("message", .s "Invalid username or password")]) := by
      unfold Ethan.login; rw [g1, g1p, h1]
      rfl
    have e2 : Ethan.login st b2 =
        (401, .obj [("message", .s "Invalid username or password")]) := by
      unfold Ethan.login; rw [g2, g2p, h2]
      dsimp only
      rw [hp]
      dsimp only
      rw [hc]
      rfl
    exact ⟨e1.trans e2.symm, e1⟩

/-- C6 witness: a concrete unknown-email login and a concrete
wrong-password login get identical 401 bodies, in both variants. -/
theorem login_failure_responses_identical_witness :
    (AppPy.login_user stA2 unknownLogin = AppPy.login_user stA2 wrongPassLogin ∧
      AppPy.login_user stA2 unknownLogin =
        .ok (401, .obj [("error", .s "Invalid email or password")])) ∧
    (Ethan.login stE2 unknownLogin = Ethan.login stE2 wrongPassLogin ∧
      Ethan.login stE2 unknownLogin =
        (401, .obj [("message", .s "Invalid username or password")])) :=
  ⟨login_failure_responses_identical.1 stA2 unknownLogin wrongPassLogin userPlainA
      "wrongpass" rfl rfl rfl rfl,
   login_failure_responses_identical.2 stE2 unknownLogin wrongPassLogin userPlainE
      "wrongpass" rfl rfl rfl rfl rfl rfl rfl rfl⟩

/-- C7: every successful login returns 200 with a body holding the
bearer token whose identity is the user id rendered as a string and
whose expiry is 1 day, together with the user email and is_admin flag,
in both variants. -/
theorem login_success_token_and_body :
    (∀ (st : AppPy.State) (b : LoginBody) (u : AppPy.UserRow) (p : String),
        AppPy.loginLookup st b = some u →
        b.password.get? = some p →
        check_password_hash u.password p = true →
        AppPy.login_user st b =
          .ok (200, .obj [("token", .tok (toString u.id) 1),
                          ("email", .s u.email), ("is_admin", .b u.is_admin)])) ∧
    (∀ (st : Ethan.State) (b : LoginBody) (u : Ethan.UserRow) (p : String),
        (b.username.truthyStr.isNone && b.email.truthyStr.isNone) = false →
        b.password.truthyStr.isNone = false →
        Ethan.loginLookup st b = some u →
        b.password.get? = some p →
        check_password_hash u.password p = true →
        Ethan.login st b =
          (200, .obj [("token", .tok (toString u.id) 1),
                      ("email", .s u.email), ("is_admin", .b u.is_admin)])) := by
  constructor
  · intro st b u p h hp hc
    unfold AppPy.login_user; rw [h]
    dsimp only
    rw [hp]
    dsimp only
    rw [hc]
    rfl
  · intro st b u p g gp h hp hc
    unfold Ethan.login; rw [g, gp, h]
    dsimp only
    rw [hp]
    dsimp only
    rw [hc]
    rfl

/-- C7 witness: a concrete successful login in each variant, showing
the token identity is the user id string and the expiry is 1 day. -/
theorem login_success_token_and_body_witness :
    AppPy.login_user stA2 goodLoginA =
      .ok (200, .obj [("token", .tok "2" 1),
                      ("email", .s "user1@gmail.com"), ("is_admin", .b false)]) ∧
    Ethan.login stE2 goodLoginE =
      (200, .obj [("token", .tok "2" 1),
                  ("email", .s "user1@gmail.com"), ("is_admin", .b false)]) :=
  ⟨login_success_token_and_body.1 stA2 goodLoginA userPlainA "123456" rfl rfl rfl,
   login_success_token_and_body.2 stE2 goodLoginE userPlainE "12345678" rfl rfl rfl rfl rfl⟩

/-- C9 amended: the stricter variant answers 400 with a JSON message for
any register body with a missing (or falsy) required field and for any
password shorter than 8; the permissive variant answers 400 with a JSON
message for a body missing the required email provided a non-empty
password is present (with the password also missing, bcrypt raises an
unhandled ValueError instead, see the counterexample). -/
theorem register_validation_amended :
    (∀ (st : Ethan.State) (b : Ethan.RegisterBody),
        (b.username.truthyStr = none ∨ b.email.truthyStr = none ∨
          b.password.truthyStr = none) →
        Ethan.register st b =
          (400, .obj [("message", .s "Missing username, email, or password")], st)) ∧
    (∀ (st : Ethan.State) (b : Ethan.RegisterBody) (un em pw : String),
        b.username.truthyStr = some un → b.email.truthyStr = some em →
        b.password.truthyStr = some pw → pw.length < 8 →
        Ethan.register st b =
          (400, .obj [("message", .s "Password must be at least 8 characters")], st)) ∧
    (∀ (st : AppPy.State) (b : AppPy.RegisterBody) (pw : String),
        b.email.get? = none → b.password.get? = some pw → pw ≠ "" →
        AppPy.register_user st b =
          .ok (400, .obj [("error", .s "Email address already exists")], st)) := by
  refine ⟨?_, ?_, ?_⟩
  · intro st b h
    rcases h with hu | he | hp
    · unfold Ethan.register; rw [hu]
    · cases hu : b.username.truthyStr with
      | none => unfold Ethan.register; rw [hu]
      | some un => unfold Ethan.register; rw [hu, he]
    · cases hu : b.username.truthyStr with
      | none => unfold Ethan.register; rw [hu]
      | some un =>
          cases he : b.email.truthyStr with
          | none => unfold Ethan.register; rw [hu, he]
          | some em => unfold Ethan.register; rw [hu, he, hp]
  · intro st b un em pw hu he hp h8
    unfold Ethan.register; rw [hu, he, hp]
    dsimp only
    rw [if_pos h8]
  · intro st b pw he hp hne
    have hg : generate_password_hash b.password.get? = .ok (bcryptHash pw) := by
      rw [hp]; simp [generate_password_hash, hne]
    unfold AppPy.register_user
    rw [hg]
    dsimp only
    unfold AppPy.insertUser
    rw [he]

/-- C9 amended witness: one concrete instance of each arm. -/
theorem register_validation_amended_witness :
    Ethan.register stE2 missingFieldBodyE =
      (400, .obj [("message", .s "Missing username, email, or password")], stE2) ∧
    Ethan.register stE2 shortPwBodyE =
      (400, .obj [("message", .s "Password must be at least 8 characters")], stE2) ∧
    AppPy.register_user stA0 noEmailBodyA =
      .ok (400, .obj [("error", .s "Email address already exists")], stA0) :=
  ⟨register_validation_amended.1 stE2 missingFieldBodyE (Or.inl rfl),
   register_validation_amended.2.1 stE2 shortPwBodyE "u1" "a@b.com" "short12" rfl rfl rfl
      (by decide),
   register_validation_amended.2.2 stA0 noEmailBodyA "12345678" rfl rfl (by decide)⟩

/-- C10: the permissive register handler never reads is_admin from the
request body: every 201-created user row carries is_admin false,
whatever the body contains. -/
theorem register_ignores_is_admin :
    ∀ (st : AppPy.State) (b : AppPy.RegisterBody) (r : Nat × ResBody × AppPy.State),
      AppPy.register_user st b = .ok r → r.1 = 201 →
      ∃ u : AppPy.UserRow, r.2.2.users = st.users ++ [u] ∧ u.is_admin = false := by
  intro st b r h h201
  obtain ⟨e, hashed, _, _, hr⟩ := register_user_201_char st b r h h201
  subst hr
  exact ⟨_, rfl, rfl⟩

/-- C10 witness: a body that explicitly carries is_admin true still
creates a user with is_admin false. -/
theorem register_ignores_is_admin_witness :
    ∃ u : AppPy.UserRow,
      (201, ResBody.obj (AppPy.user_schema_dump userAdmReq), stAdmReq).2.2.users =
        stA0.users ++ [u] ∧ u.is_admin = false :=
  register_ignores_is_admin stA0 regBodyAdmTrue
    (201, ResBody.obj (AppPy.user_schema_dump userAdmReq), stAdmReq) rfl rfl
